import Mathlib

/-!
# Verification of the `raw-input` library core

Shallow embedding of the platform-neutral event model, the subscriber
dispatcher (`src/dispatcher.rs`, `src/subscription.rs`), the Windows and
macOS lifecycle engines (`src/platform/{windows,macos}/{core,listen,grab}.rs`),
the key translation tables (`keycode.rs`) and the Windows synthesizer's
absolute-move coordinate mapping (`src/platform/windows/simulate.rs`).

Conventions of the embedding:
* `u32`/`u64` values are `Nat` (all operations used here - `&&&`, `|||`,
  `^^^`, shifts - stay within the machine width when the inputs do, and a
  Rust `!x` complement is modelled as `xor` with the all-ones mask);
* signed machine integers are `Int` with explicit wrap-around where a Rust
  `as` cast can change the value;
* `f64` arithmetic of the coordinate mapping is modelled over `ℚ`; every
  quantity involved is an integer or a ratio of small integers, and the one
  rounding-sensitive step (the final `as i32` truncation) is applied to a
  quotient far from an integer boundary, so the rational model agrees with
  the double computation;
* the global atomics of one platform are gathered into one state record and
  each Rust function becomes a pure state transformer; the event callbacks
  additionally return the list of canonical events handed to `dispatch`,
  whether the raw event was blocked, and how many cursor-warp calls were
  performed.
-/

/-- Canonical mouse buttons (`src/event.rs`, `MouseButton`). -/
inductive MouseButton
  | Left
  | Right
  | Middle
  | Back
  | Forward
deriving DecidableEq, Repr

/-- Canonical key vocabulary (`src/key.rs`, `Key`): the W3C-code based closed
enumeration actually declared in the source (commented-out variants omitted),
with the `Unidentified` fallback. -/
inductive Key
  | Backquote
  | Backslash
  | BracketLeft
  | BracketRight
  | Comma
  | Digit0
  | Digit1
  | Digit2
  | Digit3
  | Digit4
  | Digit5
  | Digit6
  | Digit7
  | Digit8
  | Digit9
  | Equal
  | IntlBackslash
  | IntlRo
  | IntlYen
  | KeyA
  | KeyB
  | KeyC
  | KeyD
  | KeyE
  | KeyF
  | KeyG
  | KeyH
  | KeyI
  | KeyJ
  | KeyK
  | KeyL
  | KeyM
  | KeyN
  | KeyO
  | KeyP
  | KeyQ
  | KeyR
  | KeyS
  | KeyT
  | KeyU
  | KeyV
  | KeyW
  | KeyX
  | KeyY
  | KeyZ
  | Minus
  | Period
  | Quote
  | Semicolon
  | Slash
  | AltLeft
  | AltRight
  | Backspace
  | CapsLock
  | ContextMenu
  | ControlLeft
  | ControlRight
  | Enter
  | MetaLeft
  | MetaRight
  | ShiftLeft
  | ShiftRight
  | Space
  | Tab
  | Convert
  | NonConvert
  | Delete
  | End
  | Help
  | Home
  | Insert
  | PageDown
  | PageUp
  | ArrowDown
  | ArrowLeft
  | ArrowRight
  | ArrowUp
  | NumLock
  | Numpad0
  | Numpad1
  | Numpad2
  | Numpad3
  | Numpad4
  | Numpad5
  | Numpad6
  | Numpad7
  | Numpad8
  | Numpad9
  | NumpadAdd
  | NumpadDecimal
  | NumpadDivide
  | NumpadEnter
  | NumpadMultiply
  | NumpadSubtract
  | Escape
  | F1
  | F2
  | F3
  | F4
  | F5
  | F6
  | F7
  | F8
  | F9
  | F10
  | F11
  | F12
  | F13
  | F14
  | F15
  | F16
  | F17
  | F18
  | F19
  | F20
  | F21
  | F22
  | F23
  | F24
  | PrintScreen
  | ScrollLock
  | Pause
  | Unidentified
deriving DecidableEq, Repr, Fintype

/-- `Key::default()` is `Key::Unidentified` (`src/key.rs`). -/
def Key.default : Key := Key.Unidentified

/-- Canonical tagged-union event (`src/event.rs`, `Event`).  Move deltas are
the raw integer deltas (`LONG`/`i32` on Windows, `i64` cast to `i32` on
macOS); wheel deltas are the floating "notch" values, modelled over `ℚ`.
The Windows normalizer attaches the raw key code to key events, the macOS
one does not, so the code is optional. -/
inductive Event
  | mouseMove (dx dy : Int)
  | mouseWheel (dx dy : ℚ)
  | mouseDown (button : MouseButton)
  | mouseUp (button : MouseButton)
  | keyDown (key : Key) (code : Option Nat)
  | keyUp (key : Key) (code : Option Nat)
deriving DecidableEq, Repr

namespace dispatcher

/-- Subscriber status (`src/dispatcher.rs`, `Status`). -/
inductive Status
  | Active
  | Paused
deriving DecidableEq, Repr

/-- The subscriber registry: the `CALLBACKS` dashmap is modelled as an
association list with distinct keys (the subscription ids), together with
the `NEXT_ID` counter. -/
structure RegState where
  nextId : Nat
  subs : List (Nat × Status)
deriving DecidableEq, Repr

/-- Process start: empty registry, counter at zero. -/
def RegState.initial : RegState := ⟨0, []⟩

/-- `Listen::subscribe` (`listen.rs`): fetch-and-increment `NEXT_ID`, insert
an `Active` subscriber under the fresh id, return the handle's id. -/
def subscribe (s : RegState) : RegState × Nat :=
  ({ nextId := s.nextId + 1, subs := s.subs ++ [(s.nextId, Status.Active)] }, s.nextId)

/-- In-place status flip used by `SubscriptionHandle::pause`/`resume`
(`src/subscription.rs`): `CALLBACKS.get_mut(&id)` updates the status of the
entry with that id, if present. -/
def setStatus (id : Nat) (st : Status) (l : List (Nat × Status)) : List (Nat × Status) :=
  l.map fun p => if p.1 = id then (p.1, st) else p

/-- `SubscriptionHandle::pause`. -/
def handlePause (id : Nat) (s : RegState) : RegState :=
  { s with subs := setStatus id Status.Paused s.subs }

/-- `SubscriptionHandle::resume`. -/
def handleResume (id : Nat) (s : RegState) : RegState :=
  { s with subs := setStatus id Status.Active s.subs }

/-- `SubscriptionHandle::unsubscribe`: `CALLBACKS.remove(&id)`. -/
def handleUnsubscribe (id : Nat) (s : RegState) : RegState :=
  { s with subs := s.subs.filter fun p => p.1 != id }

/-- `dispatcher::remove_all`: clear the registry, reset `NEXT_ID` to zero. -/
def remove_all (_s : RegState) : RegState := RegState.initial

/-- `dispatcher::dispatch` iterates the registry and invokes the callback of
every subscriber whose status reads `Active`; this returns the ids of the
subscribers whose callbacks are invoked for one dispatched event. -/
def dispatch_invoked (subs : List (Nat × Status)) : List Nat :=
  (subs.filter fun p => p.2 == Status.Active).map Prod.fst

/-- A registry operation available to library users while listening. -/
inductive Op
  | subscribe
  | pause (id : Nat)
  | resume (id : Nat)
  | unsubscribe (id : Nat)
deriving DecidableEq, Repr

/-- Effect of one operation on the registry. -/
def applyOp (s : RegState) : Op → RegState
  | Op.subscribe => (subscribe s).1
  | Op.pause id => handlePause id s
  | Op.resume id => handleResume id s
  | Op.unsubscribe id => handleUnsubscribe id s

/-- Effect of a sequence of operations, first to last. -/
def applyOps (s : RegState) (ops : List Op) : RegState := ops.foldl applyOp s

/-- Registry well-formedness: every stored id was allocated below the
counter, and the ids are pairwise distinct (dashmap keys are unique). -/
def WF (s : RegState) : Prop :=
  (∀ p ∈ s.subs, p.1 < s.nextId) ∧ (s.subs.map Prod.fst).Nodup

end dispatcher

/-! ## Capability-mask constants

`src/platform/windows/common.rs` and `src/platform/macos/common.rs` declare
textually identical constants; they are defined once here. -/

/-- `LISTEN_MOUSE_MOVE`. -/
def LISTEN_MOUSE_MOVE : Nat := 1 <<< 0

/-- `LISTEN_MOUSE_BUTTON`. -/
def LISTEN_MOUSE_BUTTON : Nat := 1 <<< 1

/-- `LISTEN_MOUSE_WHEEL`. -/
def LISTEN_MOUSE_WHEEL : Nat := 1 <<< 2

/-- `LISTEN_KEYBOARD`. -/
def LISTEN_KEYBOARD : Nat := 1 <<< 3

/-- `LISTENS_ALL`. -/
def LISTENS_ALL : Nat :=
  LISTEN_MOUSE_MOVE ||| LISTEN_MOUSE_BUTTON ||| LISTEN_MOUSE_WHEEL ||| LISTEN_KEYBOARD

/-- `GRAB_MOUSE_MOVE` (0x01). -/
def GRAB_MOUSE_MOVE : Nat := 1 <<< 0

/-- `GRAB_MOUSE_BUTTON` (0x02). -/
def GRAB_MOUSE_BUTTON : Nat := 1 <<< 1

/-- `GRAB_MOUSE_WHEEL` (0x04). -/
def GRAB_MOUSE_WHEEL : Nat := 1 <<< 2

/-- `GRAB_KEYBOARD` (0x08). -/
def GRAB_KEYBOARD : Nat := 1 <<< 3

/-- `GRAB_ALL`. -/
def GRAB_ALL : Nat :=
  GRAB_MOUSE_MOVE ||| GRAB_MOUSE_BUTTON ||| GRAB_MOUSE_WHEEL ||| GRAB_KEYBOARD

/-- Rust `!bit` on a `u32`, as a bounded complement. -/
def u32_not (bit : Nat) : Nat := 0xFFFFFFFF ^^^ bit

/-- `common::update_state`: the CAS retry loop atomically replaces the mask
by `current | bit` or `current & !bit`; its sequential effect on the held
value. -/
def update_state (current bit : Nat) (enable : Bool) : Nat :=
  if enable then current ||| bit else current &&& u32_not bit

/-! ## Windows platform (`src/platform/windows/`) -/

namespace Windows

/-- Windows message ids used by the hook path
(`windows::Win32::UI::WindowsAndMessaging`). -/
def WM_KEYDOWN : Nat := 0x0100
/-- `WM_KEYUP`. -/
def WM_KEYUP : Nat := 0x0101
/-- `WM_SYSKEYDOWN`. -/
def WM_SYSKEYDOWN : Nat := 0x0104
/-- `WM_SYSKEYUP`. -/
def WM_SYSKEYUP : Nat := 0x0105
/-- `WM_MOUSEMOVE`. -/
def WM_MOUSEMOVE : Nat := 0x0200
/-- `WM_LBUTTONDOWN`. -/
def WM_LBUTTONDOWN : Nat := 0x0201
/-- `WM_LBUTTONUP`. -/
def WM_LBUTTONUP : Nat := 0x0202
/-- `WM_RBUTTONDOWN`. -/
def WM_RBUTTONDOWN : Nat := 0x0204
/-- `WM_RBUTTONUP`. -/
def WM_RBUTTONUP : Nat := 0x0205
/-- `WM_MBUTTONDOWN`. -/
def WM_MBUTTONDOWN : Nat := 0x0207
/-- `WM_MBUTTONUP`. -/
def WM_MBUTTONUP : Nat := 0x0208
/-- `WM_MOUSEWHEEL`. -/
def WM_MOUSEWHEEL : Nat := 0x020A
/-- `WM_XBUTTONDOWN`. -/
def WM_XBUTTONDOWN : Nat := 0x020B
/-- `WM_XBUTTONUP`. -/
def WM_XBUTTONUP : Nat := 0x020C
/-- `WM_MOUSEHWHEEL`. -/
def WM_MOUSEHWHEEL : Nat := 0x020E
/-- `XBUTTON1`. -/
def XBUTTON1 : Nat := 1
/-- `XBUTTON2`. -/
def XBUTTON2 : Nat := 2
/-- `WHEEL_DELTA`. -/
def WHEEL_DELTA : Nat := 120
/-- `HC_ACTION`. -/
def HC_ACTION : Int := 0
/-- `VK_PACKET`. -/
def VK_PACKET : Nat := 0xE7
/-- `MOUSE_MOVE_ABSOLUTE` flag bit of `RAWMOUSE.usFlags`. -/
def MOUSE_MOVE_ABSOLUTE : Nat := 1

/-- The process-wide atomics of the Windows backend
(`common.rs`, `grab.rs::{MOUSE_HOOK, KEYBOARD_HOOK}`, `core.rs` statics),
plus the shared subscriber registry.  Hook pointers are modelled by whether
they are non-null together with a count of `SetWindowsHookExW`
installations; `CORE_THREAD_ID` by whether it is non-zero. -/
structure WinState where
  isCoreRunning : Bool
  isListenRunning : Bool
  isGrabRunning : Bool
  listenFlag : Nat
  grabFlag : Nat
  reg : dispatcher.RegState
  globalHwnd : Bool
  mouseHook : Bool
  keyboardHook : Bool
  mouseHookInstalls : Nat
  keyboardHookInstalls : Nat
  coreThreadId : Bool
deriving DecidableEq, Repr

/-- Process start: everything stopped, masks clear, no hook installed. -/
def initState : WinState :=
  ⟨false, false, false, 0, 0, dispatcher.RegState.initial, false, false, false, 0, 0, false⟩

/-- One raw native event as seen by the low-level hook: the message id
(`wparam`) together with the two possible readings of the `lparam` payload
(`MSLLHOOKSTRUCT.mouseData` for mouse messages, `KBDLLHOOKSTRUCT`'s
`vkCode`/`scanCode` for keyboard messages). -/
structure WinRawEvent where
  msg : Nat
  mouseData : Nat
  vkCode : Nat
  scanCode : Nat
deriving DecidableEq, Repr

/-- `utils::hiword`. -/
def hiword (l : Nat) : Nat := (l >>> 16) &&& 0xffff

/-- Reading a `u16` as Rust `as i16` (two's complement). -/
def i16_of_u16 (w : Nat) : Int := if w < 0x8000 then (w : Int) else (w : Int) - 0x10000

/-- `utils::get_code`: a `VK_PACKET` event carries its code in the scan-code
field, otherwise the virtual-key code is used. -/
def get_code (vkCode scanCode : Nat) : Nat := if vkCode = VK_PACKET then scanCode else vkCode

/-- The `keymap!` table of `src/platform/windows/keycode.rs` in source
order: `(key, virtual-key code)` per entry (scan codes are not needed by
the claims about this table). -/
def keymap_pairs : List (Key × Nat) :=
  [ (Key.KeyA, 65), (Key.KeyB, 66), (Key.KeyC, 67), (Key.KeyD, 68), (Key.KeyE, 69),
    (Key.KeyF, 70), (Key.KeyG, 71), (Key.KeyH, 72), (Key.KeyI, 73), (Key.KeyJ, 74),
    (Key.KeyK, 75), (Key.KeyL, 76), (Key.KeyM, 77), (Key.KeyN, 78), (Key.KeyO, 79),
    (Key.KeyP, 80), (Key.KeyQ, 81), (Key.KeyR, 82), (Key.KeyS, 83), (Key.KeyT, 84),
    (Key.KeyU, 85), (Key.KeyV, 86), (Key.KeyW, 87), (Key.KeyX, 88), (Key.KeyY, 89),
    (Key.KeyZ, 90),
    (Key.Digit1, 49), (Key.Digit2, 50), (Key.Digit3, 51), (Key.Digit4, 52),
    (Key.Digit5, 53), (Key.Digit6, 54), (Key.Digit7, 55), (Key.Digit8, 56),
    (Key.Digit9, 57), (Key.Digit0, 48),
    (Key.Backquote, 192), (Key.Backslash, 220), (Key.BracketLeft, 219),
    (Key.BracketRight, 221), (Key.Comma, 188), (Key.Equal, 187), (Key.Minus, 189),
    (Key.Period, 190), (Key.Quote, 222), (Key.Semicolon, 186), (Key.Slash, 191),
    (Key.IntlBackslash, 226),
    (Key.AltLeft, 164), (Key.AltRight, 165), (Key.Backspace, 0x08), (Key.CapsLock, 20),
    (Key.ContextMenu, 93), (Key.ControlLeft, 162), (Key.ControlRight, 163),
    (Key.Enter, 13), (Key.Escape, 27), (Key.MetaLeft, 91), (Key.MetaRight, 92),
    (Key.ShiftLeft, 160), (Key.ShiftRight, 161), (Key.Space, 32), (Key.Tab, 0x09),
    (Key.Convert, 0x1C), (Key.NonConvert, 0x1D),
    (Key.Delete, 46), (Key.End, 35), (Key.Home, 36), (Key.Insert, 45),
    (Key.PageDown, 34), (Key.PageUp, 33),
    (Key.ArrowDown, 40), (Key.ArrowLeft, 37), (Key.ArrowRight, 39), (Key.ArrowUp, 38),
    (Key.NumLock, 144), (Key.Numpad0, 96), (Key.Numpad1, 97), (Key.Numpad2, 98),
    (Key.Numpad3, 99), (Key.Numpad4, 100), (Key.Numpad5, 101), (Key.Numpad6, 102),
    (Key.Numpad7, 103), (Key.Numpad8, 104), (Key.Numpad9, 105), (Key.NumpadAdd, 107),
    (Key.NumpadDecimal, 110), (Key.NumpadDivide, 111), (Key.NumpadEnter, 13),
    (Key.NumpadMultiply, 106), (Key.NumpadSubtract, 109),
    (Key.F1, 112), (Key.F2, 113), (Key.F3, 114), (Key.F4, 115), (Key.F5, 116),
    (Key.F6, 117), (Key.F7, 118), (Key.F8, 119), (Key.F9, 120), (Key.F10, 121),
    (Key.F11, 122), (Key.F12, 123), (Key.F13, 124), (Key.F14, 125), (Key.F15, 126),
    (Key.F16, 127), (Key.F17, 128), (Key.F18, 129), (Key.F19, 130), (Key.F20, 131),
    (Key.F21, 132), (Key.F22, 133), (Key.F23, 134), (Key.F24, 135),
    (Key.PrintScreen, 44), (Key.ScrollLock, 145), (Key.Pause, 19),
    (Key.IntlRo, 0x00E2), (Key.IntlYen, 0x00DC) ]

/-- `key_to_code`: the macro expands to a `match` with one arm per table
entry in source order and a `None` fallback; first match wins. -/
def key_to_code (key : Key) : Option Nat :=
  (keymap_pairs.find? fun p => p.1 == key).map Prod.snd

/-- `code_to_key`: one arm per table entry in source order (duplicate codes
shadowed by the earlier arm, hence `find?`), defaulting to
`Key::default()` = `Unidentified`. -/
def code_to_key (code : Nat) : Key :=
  ((keymap_pairs.find? fun p => p.2 == code).map Prod.fst).getD Key.default

end Windows

namespace Windows

/-! ### Listener engine (`src/platform/windows/listen.rs`) -/

/-- `Listen::is_run`: CAS `false → true` on `IS_LISTEN_RUNNING`; it reports
whether the listener was already running and, as a side effect of the CAS,
leaves the flag `true`.  Returned as (was-running, new state). -/
def Listen.is_run (s : WinState) : Bool × WinState :=
  (s.isListenRunning, { s with isListenRunning := true })

/-- `Listen::start`: if already running, return; otherwise store
`LISTENS_ALL` into the mask (the CAS has set the running flag). -/
def Listen.start (s : WinState) : WinState :=
  match Listen.is_run s with
  | (true, _) => s
  | (false, s1) => { s1 with listenFlag := LISTENS_ALL }

/-- `Listen::pause`. -/
def Listen.pause (s : WinState) : WinState := { s with isListenRunning := false }

/-- `Listen::resume`. -/
def Listen.resume (s : WinState) : WinState := { s with isListenRunning := true }

/-- `Listen::stop`: clear the mask, pause, clear the registry. -/
def Listen.stop (s : WinState) : WinState :=
  let s := { s with listenFlag := 0 }
  let s := Listen.pause s
  { s with reg := dispatcher.remove_all s.reg }

/-- `Listen::mouse_move` toggle. -/
def Listen.mouse_move (s : WinState) (enable : Bool) : WinState :=
  { s with listenFlag := update_state s.listenFlag LISTEN_MOUSE_MOVE enable }

/-- `Listen::mouse_wheel` toggle. -/
def Listen.mouse_wheel (s : WinState) (enable : Bool) : WinState :=
  { s with listenFlag := update_state s.listenFlag LISTEN_MOUSE_WHEEL enable }

/-- `Listen::mouse_button` toggle. -/
def Listen.mouse_button (s : WinState) (enable : Bool) : WinState :=
  { s with listenFlag := update_state s.listenFlag LISTEN_MOUSE_BUTTON enable }

/-- `Listen::keyboard` toggle. -/
def Listen.keyboard (s : WinState) (enable : Bool) : WinState :=
  { s with listenFlag := update_state s.listenFlag LISTEN_KEYBOARD enable }

/-- `Listen::handle`, the Windows normalizer for hook events (buttons,
wheel, keyboard; relative mouse moves arrive through the Raw Input window
instead).  Returns the canonical events handed to `dispatch` (one or
none). -/
def Listen.handle (s : WinState) (e : WinRawEvent) : List Event :=
  if s.isListenRunning = false then []
  else
    let state := s.listenFlag
    if state = 0 then []
    else
      let msg := e.msg
      if msg = WM_LBUTTONDOWN ∨ msg = WM_LBUTTONUP ∨ msg = WM_RBUTTONDOWN ∨
          msg = WM_RBUTTONUP ∨ msg = WM_MBUTTONDOWN ∨ msg = WM_MBUTTONUP ∨
          msg = WM_XBUTTONDOWN ∨ msg = WM_XBUTTONUP ∨ msg = WM_MOUSEWHEEL ∨
          msg = WM_MOUSEHWHEEL then
        let is_wheel := msg = WM_MOUSEWHEEL ∨ msg = WM_MOUSEHWHEEL
        if is_wheel ∧ state &&& LISTEN_MOUSE_WHEEL = 0 then []
        else if ¬ is_wheel ∧ state &&& LISTEN_MOUSE_BUTTON = 0 then []
        else
          let delta := hiword e.mouseData
          if msg = WM_LBUTTONDOWN then [Event.mouseDown MouseButton.Left]
          else if msg = WM_LBUTTONUP then [Event.mouseUp MouseButton.Left]
          else if msg = WM_RBUTTONDOWN then [Event.mouseDown MouseButton.Right]
          else if msg = WM_RBUTTONUP then [Event.mouseUp MouseButton.Right]
          else if msg = WM_MBUTTONDOWN then [Event.mouseDown MouseButton.Middle]
          else if msg = WM_MBUTTONUP then [Event.mouseUp MouseButton.Middle]
          else if msg = WM_MOUSEWHEEL then
            [Event.mouseWheel 0 ((i16_of_u16 delta : ℚ) / (WHEEL_DELTA : ℚ))]
          else if msg = WM_MOUSEHWHEEL then
            [Event.mouseWheel ((i16_of_u16 delta : ℚ) / (WHEEL_DELTA : ℚ)) 0]
          else if msg = WM_XBUTTONDOWN ∨ msg = WM_XBUTTONUP then
            if delta = XBUTTON1 then
              if msg = WM_XBUTTONDOWN then [Event.mouseDown MouseButton.Back]
              else [Event.mouseUp MouseButton.Back]
            else if delta = XBUTTON2 then
              if msg = WM_XBUTTONDOWN then [Event.mouseDown MouseButton.Forward]
              else [Event.mouseUp MouseButton.Forward]
            else []
          else []
      else if msg = WM_KEYDOWN ∨ msg = WM_SYSKEYDOWN ∨ msg = WM_KEYUP ∨
          msg = WM_SYSKEYUP then
        if state &&& LISTEN_KEYBOARD = 0 then []
        else
          let code := get_code e.vkCode e.scanCode
          let key := code_to_key code
          if msg = WM_KEYDOWN ∨ msg = WM_SYSKEYDOWN then [Event.keyDown key (some code)]
          else [Event.keyUp key (some code)]
      else []

/-- One Raw Input payload as used by `Listen::handle_mouse_move`:
whether `GetRawInputData` succeeded, the `header.dwType` mouse check,
`data.mouse.usFlags` and the relative deltas `lLastX`/`lLastY`. -/
structure RawMouseInput where
  valid : Bool
  isMouse : Bool
  usFlags : Nat
  lLastX : Int
  lLastY : Int
deriving DecidableEq, Repr

/-- `Listen::handle_mouse_move`: the `WM_INPUT` handler of the hidden
window.  Returns (the `is_handle` result, events handed to `dispatch`). -/
def Listen.handle_mouse_move (s : WinState) (r : RawMouseInput) : Bool × List Event :=
  if s.isListenRunning = false then (false, [])
  else if s.listenFlag &&& LISTEN_MOUSE_MOVE = 0 then (false, [])
  else if r.valid = false then (false, [])
  else if r.isMouse = false then (false, [])
  else if r.usFlags &&& MOUSE_MOVE_ABSOLUTE ≠ 0 then (true, [])
  else if r.lLastX ≠ 0 ∨ r.lLastY ≠ 0 then (true, [Event.mouseMove r.lLastX r.lLastY])
  else (true, [])

/-! ### Interceptor engine (`src/platform/windows/grab.rs`) -/

/-- `Grab::is_run`: CAS `false → true` on `IS_GRAB_RUNNING`. -/
def Grab.is_run (s : WinState) : Bool × WinState :=
  (s.isGrabRunning, { s with isGrabRunning := true })

/-- `Grab::start`: if already running, return; otherwise OR `GRAB_ALL` into
the mask. -/
def Grab.start (s : WinState) : WinState :=
  match Grab.is_run s with
  | (true, _) => s
  | (false, s1) => { s1 with grabFlag := s1.grabFlag ||| GRAB_ALL }

/-- `Grab::pause`. -/
def Grab.pause (s : WinState) : WinState := { s with isGrabRunning := false }

/-- `Grab::resume`. -/
def Grab.resume (s : WinState) : WinState := { s with isGrabRunning := true }

/-- `Grab::stop`: pause, then clear the mask. -/
def Grab.stop (s : WinState) : WinState :=
  let s := Grab.pause s
  { s with grabFlag := 0 }

/-- `Grab::should_block` on a message id. -/
def Grab.should_block (s : WinState) (msg : Nat) : Bool :=
  let state := s.grabFlag
  if state = 0 then false
  else if msg = WM_MOUSEMOVE then state &&& GRAB_MOUSE_MOVE != 0
  else if msg = WM_LBUTTONDOWN ∨ msg = WM_LBUTTONUP ∨ msg = WM_RBUTTONDOWN ∨
      msg = WM_RBUTTONUP ∨ msg = WM_MBUTTONDOWN ∨ msg = WM_MBUTTONUP ∨
      msg = WM_XBUTTONDOWN ∨ msg = WM_XBUTTONUP then state &&& GRAB_MOUSE_BUTTON != 0
  else if msg = WM_MOUSEWHEEL ∨ msg = WM_MOUSEHWHEEL then state &&& GRAB_MOUSE_WHEEL != 0
  else if msg = WM_KEYDOWN ∨ msg = WM_SYSKEYDOWN ∨ msg = WM_KEYUP ∨
      msg = WM_SYSKEYUP then state &&& GRAB_KEYBOARD != 0
  else false

/-! ### Capture engine (`src/platform/windows/core.rs`) -/

/-- `Core::is_run`: CAS `false → true` on `IS_CORE_RUNNING`; reports whether
the core was already running, leaving the flag `true`. -/
def Core.is_run (s : WinState) : Bool × WinState :=
  (s.isCoreRunning, { s with isCoreRunning := true })

/-- `Core::pause`. -/
def Core.pause (s : WinState) : WinState := { s with isCoreRunning := false }

/-- `Core::resume`. -/
def Core.resume (s : WinState) : WinState := { s with isCoreRunning := true }

/-- `Core::is_runing`. -/
def Core.is_runing (s : WinState) : Bool := s.isCoreRunning

/-- `Core::handle_hook` for one of the two hook statics, success path of
`SetWindowsHookExW`: skip if the pointer is already non-null, otherwise
install and store.  `(installed pointer, install count)`. -/
def Core.handle_hook (hook : Bool) (installs : Nat) : Bool × Nat :=
  if hook then (hook, installs) else (true, installs + 1)

/-- `Core::stop`: pause, swap both hook pointers to null (unhooking), swap
the stored thread id to 0 and post `WM_QUIT` (external effects).  The
Listener and Interceptor engines are not touched. -/
def Core.stop (s : WinState) : WinState :=
  let s := Core.pause s
  let s := { s with mouseHook := false }
  let s := { s with keyboardHook := false }
  { s with coreThreadId := false }

/-- Result of `Core::start` up to the point where the first start blocks in
its `GetMessageW` loop: `ok` is the `Result`, `entersLoop` tells whether
this call proceeded past the `is_run` CAS (only the first caller does; it
then blocks until `stop`).  Hook installation and window registration are
modelled on their success path, as the claims about `start` presuppose a
successful first start. -/
structure StartResult where
  state : WinState
  ok : Bool
  entersLoop : Bool
deriving DecidableEq, Repr

/-- `Core::start` (Windows): CAS guard, hidden Raw-Input window setup,
low-level mouse and keyboard hook installation, thread-id store. -/
def Core.start (s : WinState) : StartResult :=
  match Core.is_run s with
  | (true, _) => ⟨s, true, false⟩
  | (false, s1) =>
    let s2 := if s1.globalHwnd then s1 else { s1 with globalHwnd := true }
    let (mh, mi) := Core.handle_hook s2.mouseHook s2.mouseHookInstalls
    let s3 := { s2 with mouseHook := mh, mouseHookInstalls := mi }
    let (kh, ki) := Core.handle_hook s3.keyboardHook s3.keyboardHookInstalls
    let s4 := { s3 with keyboardHook := kh, keyboardHookInstalls := ki }
    ⟨{ s4 with coreThreadId := true }, true, true⟩

/-- What one invocation of the low-level hook callback produces. -/
structure WinHookResult where
  dispatched : List Event
  blocked : Bool
  warps : Nat
deriving DecidableEq, Repr

/-- `hook_event_callback` (Windows): on `HC_ACTION`, hand the event to
`Listen::handle`, then consult `IS_GRAB_RUNNING` and `Grab::should_block`;
`blocked` records an `LRESULT(1)` return.  The Windows source performs no
cursor warp, recorded as zero warp calls. -/
def Core.hook_event_callback (s : WinState) (code : Int) (e : WinRawEvent) : WinHookResult :=
  if code = HC_ACTION then
    let evs := Listen.handle s e
    if s.isGrabRunning = false then ⟨evs, false, 0⟩
    else if Grab.should_block s e.msg then ⟨evs, true, 0⟩
    else ⟨evs, false, 0⟩
  else ⟨[], false, 0⟩

end Windows

/-! ## macOS platform (`src/platform/macos/`) -/

namespace Macos

/-- The `CGEventType` variants the tap subscribes to
(`common.rs::INTERESTED_EVENTS`), plus a catch-all for the wildcard arm. -/
inductive CGEventType
  | mouseMoved
  | leftMouseDown
  | leftMouseUp
  | rightMouseDown
  | rightMouseUp
  | scrollWheel
  | otherMouseDown
  | otherMouseUp
  | leftMouseDragged
  | rightMouseDragged
  | otherMouseDragged
  | keyDown
  | keyUp
  | flagsChanged
  | other
deriving DecidableEq, Repr

/-- The integer-valued fields of a `CGEvent` read by the normalizer
(`get_integer_value_field`), its modifier-flags bitset, and its location
(used only by the cursor warp). -/
structure CGEventData where
  mouseDeltaX : Int
  mouseDeltaY : Int
  mouseButtonNumber : Int
  scrollDeltaAxis1 : Int
  scrollDeltaAxis2 : Int
  keyboardKeycode : Nat
  flags : Nat
deriving DecidableEq, Repr

/-- The process-wide atomics of the macOS backend (`common.rs` statics,
`listen.rs::LAST_FLAGS`), the shared subscriber registry and whether a run
loop for the event tap is stored in `CORE_RUN_LOOP`. -/
structure MacState where
  isCoreRunning : Bool
  isListenRunning : Bool
  isGrabRunning : Bool
  listenFlag : Nat
  grabFlag : Nat
  lastFlags : Nat
  reg : dispatcher.RegState
  runLoop : Bool
deriving DecidableEq, Repr

/-- Process start. -/
def initState : MacState :=
  ⟨false, false, false, 0, 0, 0, dispatcher.RegState.initial, false⟩

/-- The `keymap!` table of `src/platform/macos/keycode.rs` in source order. -/
def keymap_pairs : List (Key × Nat) :=
  [ (Key.KeyA, 0x00), (Key.KeyS, 0x01), (Key.KeyD, 0x02), (Key.KeyF, 0x03),
    (Key.KeyH, 0x04), (Key.KeyG, 0x05), (Key.KeyZ, 0x06), (Key.KeyX, 0x07),
    (Key.KeyC, 0x08), (Key.KeyV, 0x09), (Key.KeyB, 0x0B), (Key.KeyQ, 0x0C),
    (Key.KeyW, 0x0D), (Key.KeyE, 0x0E), (Key.KeyR, 0x0F), (Key.KeyY, 0x10),
    (Key.KeyT, 0x11),
    (Key.Digit1, 0x12), (Key.Digit2, 0x13), (Key.Digit3, 0x14), (Key.Digit4, 0x15),
    (Key.Digit5, 0x17), (Key.Digit6, 0x16), (Key.Digit7, 0x1A), (Key.Digit8, 0x1C),
    (Key.Digit9, 0x19), (Key.Digit0, 0x1D),
    (Key.Equal, 0x18), (Key.Minus, 0x1B), (Key.BracketRight, 0x1E),
    (Key.BracketLeft, 0x21), (Key.KeyO, 0x1F), (Key.KeyU, 0x20), (Key.KeyI, 0x22),
    (Key.KeyP, 0x23), (Key.KeyL, 0x25), (Key.KeyJ, 0x26), (Key.KeyK, 0x28),
    (Key.KeyN, 0x2D), (Key.KeyM, 0x2E), (Key.Quote, 0x27), (Key.Semicolon, 0x29),
    (Key.Backslash, 0x2A), (Key.Comma, 0x2B), (Key.Slash, 0x2C), (Key.Period, 0x2F),
    (Key.Backquote, 0x32), (Key.IntlBackslash, 0x0A),
    (Key.Enter, 0x24), (Key.Tab, 0x30), (Key.Space, 0x31), (Key.Backspace, 0x33),
    (Key.Escape, 0x35), (Key.MetaRight, 0x36), (Key.MetaLeft, 0x37),
    (Key.ShiftLeft, 0x38), (Key.CapsLock, 0x39), (Key.AltLeft, 0x3A),
    (Key.ControlLeft, 0x3B), (Key.ShiftRight, 0x3C), (Key.AltRight, 0x3D),
    (Key.ControlRight, 0x3E),
    (Key.Home, 0x73), (Key.PageUp, 0x74), (Key.Delete, 0x75), (Key.End, 0x77),
    (Key.PageDown, 0x79), (Key.Insert, 0x72),
    (Key.ArrowLeft, 0x7B), (Key.ArrowRight, 0x7C), (Key.ArrowDown, 0x7D),
    (Key.ArrowUp, 0x7E),
    (Key.NumpadDecimal, 0x41), (Key.NumpadMultiply, 0x43), (Key.NumpadAdd, 0x45),
    (Key.NumLock, 0x47), (Key.NumpadDivide, 0x4B), (Key.NumpadEnter, 0x4C),
    (Key.NumpadSubtract, 0x4E), (Key.Numpad0, 0x52), (Key.Numpad1, 0x53),
    (Key.Numpad2, 0x54), (Key.Numpad3, 0x55), (Key.Numpad4, 0x56),
    (Key.Numpad5, 0x57), (Key.Numpad6, 0x58), (Key.Numpad7, 0x59),
    (Key.Numpad8, 0x5B), (Key.Numpad9, 0x5C),
    (Key.F1, 0x7A), (Key.F2, 0x78), (Key.F3, 0x63), (Key.F4, 0x76), (Key.F5, 0x60),
    (Key.F6, 0x61), (Key.F7, 0x62), (Key.F8, 0x64), (Key.F9, 0x65), (Key.F10, 0x6D),
    (Key.F11, 0x67), (Key.F12, 0x6F), (Key.F13, 0x69), (Key.F14, 0x6B),
    (Key.F15, 0x71), (Key.F16, 0x6A), (Key.F17, 0x40), (Key.F18, 0x4F),
    (Key.F19, 0x50), (Key.F20, 0x5A),
    (Key.IntlYen, 0x5D), (Key.IntlRo, 0x5E) ]

/-- macOS `key_to_code` (first matching arm of the generated `match`). -/
def key_to_code (key : Key) : Option Nat :=
  (keymap_pairs.find? fun p => p.1 == key).map Prod.snd

/-- macOS `code_to_key`, defaulting to `Key::Unidentified`.  (The macOS
normalizer refers to this table as `key_from_code`; `keycode.rs` is the
table present in the source tree.) -/
def code_to_key (code : Nat) : Key :=
  ((keymap_pairs.find? fun p => p.2 == code).map Prod.fst).getD Key.Unidentified

/-- Rust `as i32` on an `i64` value: two's-complement wrap-around. -/
def i64_as_i32 (n : Int) : Int := (n + 2 ^ 31) % 2 ^ 32 - 2 ^ 31

/-! ### Listener engine (`src/platform/macos/listen.rs`) -/

/-- `Listen::is_run` (CAS `false → true` on `IS_LISTEN_RUNNING`). -/
def Listen.is_run (s : MacState) : Bool × MacState :=
  (s.isListenRunning, { s with isListenRunning := true })

/-- `Listen::start`. -/
def Listen.start (s : MacState) : MacState :=
  match Listen.is_run s with
  | (true, _) => s
  | (false, s1) => { s1 with listenFlag := LISTENS_ALL }

/-- `Listen::pause`. -/
def Listen.pause (s : MacState) : MacState := { s with isListenRunning := false }

/-- `Listen::resume`. -/
def Listen.resume (s : MacState) : MacState := { s with isListenRunning := true }

/-- `Listen::stop`. -/
def Listen.stop (s : MacState) : MacState :=
  let s := { s with listenFlag := 0 }
  let s := Listen.pause s
  { s with reg := dispatcher.remove_all s.reg }

/-- `Listen::handle`, the macOS normalizer: consumes one tap event, may
update `LAST_FLAGS`, and returns the canonical events handed to
`dispatch`. -/
def Listen.handle (s : MacState) (t : CGEventType) (e : CGEventData) :
    MacState × List Event :=
  if s.isListenRunning = false then (s, [])
  else
    let state := s.listenFlag
    if state = 0 then (s, [])
    else
      match t with
      | CGEventType.mouseMoved | CGEventType.leftMouseDragged
      | CGEventType.rightMouseDragged | CGEventType.otherMouseDragged =>
        if state &&& LISTEN_MOUSE_MOVE = 0 then (s, [])
        else
          let dx := e.mouseDeltaX
          let dy := e.mouseDeltaY
          if dx ≠ 0 ∨ dy ≠ 0 then
            (s, [Event.mouseMove (i64_as_i32 dx) (i64_as_i32 dy)])
          else (s, [])
      | CGEventType.leftMouseDown | CGEventType.leftMouseUp
      | CGEventType.rightMouseDown | CGEventType.rightMouseUp =>
        if state &&& LISTEN_MOUSE_BUTTON = 0 then (s, [])
        else
          let button :=
            if t = CGEventType.leftMouseDown ∨ t = CGEventType.leftMouseUp then
              MouseButton.Left
            else MouseButton.Right
          if t = CGEventType.leftMouseDown ∨ t = CGEventType.rightMouseDown then
            (s, [Event.mouseDown button])
          else (s, [Event.mouseUp button])
      | CGEventType.otherMouseDown | CGEventType.otherMouseUp =>
        if state &&& LISTEN_MOUSE_BUTTON = 0 then (s, [])
        else
          let num := e.mouseButtonNumber
          if num = 2 then
            if t = CGEventType.otherMouseDown then (s, [Event.mouseDown MouseButton.Middle])
            else (s, [Event.mouseUp MouseButton.Middle])
          else if num = 3 then
            if t = CGEventType.otherMouseDown then (s, [Event.mouseDown MouseButton.Back])
            else (s, [Event.mouseUp MouseButton.Back])
          else if num = 4 then
            if t = CGEventType.otherMouseDown then (s, [Event.mouseDown MouseButton.Forward])
            else (s, [Event.mouseUp MouseButton.Forward])
          else (s, [])
      | CGEventType.scrollWheel =>
        if state &&& LISTEN_MOUSE_WHEEL = 0 then (s, [])
        else
          let dy := e.scrollDeltaAxis1
          let dx := e.scrollDeltaAxis2
          (s, [Event.mouseWheel (dx : ℚ) (dy : ℚ)])
      | CGEventType.keyDown | CGEventType.keyUp =>
        if state &&& LISTEN_KEYBOARD = 0 then (s, [])
        else
          let key := code_to_key e.keyboardKeycode
          if t = CGEventType.keyDown then (s, [Event.keyDown key none])
          else (s, [Event.keyUp key none])
      | CGEventType.flagsChanged =>
        if state &&& LISTEN_KEYBOARD = 0 then (s, [])
        else
          let new_flags := e.flags
          let old_flags := s.lastFlags
          let s1 := { s with lastFlags := new_flags }
          let changed_bit := new_flags ^^^ old_flags
          if changed_bit = 0 then (s1, [])
          else
            let key := code_to_key e.keyboardKeycode
            if new_flags &&& changed_bit ≠ 0 then (s1, [Event.keyDown key none])
            else (s1, [Event.keyUp key none])
      | CGEventType.other => (s, [])

/-! ### Interceptor engine (`src/platform/macos/grab.rs`) -/

/-- `Grab::is_run`. -/
def Grab.is_run (s : MacState) : Bool × MacState :=
  (s.isGrabRunning, { s with isGrabRunning := true })

/-- `Grab::start`. -/
def Grab.start (s : MacState) : MacState :=
  match Grab.is_run s with
  | (true, _) => s
  | (false, s1) => { s1 with grabFlag := s1.grabFlag ||| GRAB_ALL }

/-- `Grab::pause`. -/
def Grab.pause (s : MacState) : MacState := { s with isGrabRunning := false }

/-- `Grab::resume`. -/
def Grab.resume (s : MacState) : MacState := { s with isGrabRunning := true }

/-- `Grab::stop`. -/
def Grab.stop (s : MacState) : MacState :=
  let s := Grab.pause s
  { s with grabFlag := 0 }

/-- `Grab::should_block` (macOS): returns `false` when the Interceptor is
not running or its mask is zero, otherwise tests the category bit of the
event type. -/
def Grab.should_block (s : MacState) (t : CGEventType) : Bool :=
  if s.isGrabRunning = false then false
  else
    let state := s.grabFlag
    if state = 0 then false
    else
      match t with
      | CGEventType.mouseMoved | CGEventType.leftMouseDragged
      | CGEventType.rightMouseDragged | CGEventType.otherMouseDragged =>
        state &&& GRAB_MOUSE_MOVE != 0
      | CGEventType.leftMouseDown | CGEventType.leftMouseUp
      | CGEventType.rightMouseDown | CGEventType.rightMouseUp
      | CGEventType.otherMouseDown | CGEventType.otherMouseUp =>
        state &&& GRAB_MOUSE_BUTTON != 0
      | CGEventType.scrollWheel => state &&& GRAB_MOUSE_WHEEL != 0
      | CGEventType.keyDown | CGEventType.keyUp | CGEventType.flagsChanged =>
        state &&& GRAB_KEYBOARD != 0
      | CGEventType.other => false

/-! ### Capture engine (`src/platform/macos/core.rs`) -/

/-- `Core::is_run`. -/
def Core.is_run (s : MacState) : Bool × MacState :=
  (s.isCoreRunning, { s with isCoreRunning := true })

/-- `Core::pause`. -/
def Core.pause (s : MacState) : MacState := { s with isCoreRunning := false }

/-- `Core::resume`. -/
def Core.resume (s : MacState) : MacState := { s with isCoreRunning := true }

/-- `Core::is_runing`. -/
def Core.is_runing (s : MacState) : Bool := s.isCoreRunning

/-- `Core::unhook`: stop the stored run loop, if any. -/
def Core.unhook (s : MacState) : MacState := { s with runLoop := false }

/-- `Core::stop` (macOS): pause the capture flag, stop the Listener engine,
stop the Interceptor engine, stop the run loop. -/
def Core.stop (s : MacState) : MacState :=
  let s := Core.pause s
  let s := Listen.stop s
  let s := Grab.stop s
  Core.unhook s

/-- What one invocation of the event-tap callback produces: the updated
state, the events handed to `dispatch`, whether the raw event was dropped
(`CallbackResult::Drop`), and the number of `CGWarpMouseCursorPosition`
calls. -/
structure MacHookResult where
  state : MacState
  dispatched : List Event
  dropped : Bool
  warps : Nat
deriving DecidableEq, Repr

/-- `hook_event_callback` (macOS): keep the event untouched while
`IS_CORE_RUNNING` is false; otherwise normalize through `Listen::handle`,
then ask `Grab::should_block`; a dropped event triggers a cursor warp to
the event's location whenever the move-category bit of `GRAB_FLAG` is set. -/
def Core.hook_event_callback (s : MacState) (t : CGEventType) (e : CGEventData) :
    MacHookResult :=
  if s.isCoreRunning = false then ⟨s, [], false, 0⟩
  else
    let r := Listen.handle s t e
    let s1 := r.1
    let evs := r.2
    if Grab.should_block s1 t then
      if s1.grabFlag &&& GRAB_MOUSE_MOVE ≠ 0 then ⟨s1, evs, true, 1⟩
      else ⟨s1, evs, true, 0⟩
    else ⟨s1, evs, false, 0⟩

end Macos

/-! ## Windows synthesizer: absolute mouse move
(`src/platform/windows/simulate.rs`, `InputBuilder::add_mouse_move_to`) -/

namespace Windows

/-- Rust `as i32` applied to a finite `f64`: truncation toward zero,
saturating at the `i32` bounds. -/
def f64_as_i32 (q : ℚ) : Int :=
  let t : Int := if 0 ≤ q then ⌊q⌋ else ⌈q⌉
  max (-(2 ^ 31)) (min (2 ^ 31 - 1) t)

/-- `InputBuilder::add_mouse_move_to`: the virtual-desktop bounds
`(vx, vy, vw, vh)` and the scale factor come from the external `Display`
collaborator and are passed as parameters.  Returns the `(dx, dy)` pairs of
the `MOUSEINPUT` descriptors appended to the builder: empty when the extent
is degenerate, otherwise one absolute-move descriptor computed by
`(physical - origin) * 65535 / (extent - 1)` over floats and truncated by
`as i32`. -/
def add_mouse_move_to (vx vy vw vh : Int) (scale_factor x y : ℚ) : List (Int × Int) :=
  if vw ≤ 1 ∨ vh ≤ 1 then []
  else
    let phys_x := x * scale_factor
    let phys_y := y * scale_factor
    let dx := f64_as_i32 ((phys_x - (vx : ℚ)) * 65535 / ((vw : ℚ) - 1))
    let dy := f64_as_i32 ((phys_y - (vy : ℚ)) * 65535 / ((vh : ℚ) - 1))
    [(dx, dy)]

end Windows

/-- Callback invocations produced by a batch of dispatched canonical
events: `dispatch` is called once per normalized event, and each call
invokes the callbacks of the subscribers read as `Active`
(`src/dispatcher.rs`). -/
def invocations (subs : List (Nat × dispatcher.Status)) (evs : List Event) :
    List (Nat × Event) :=
  evs.flatMap fun e => (dispatcher.dispatch_invoked subs).map fun id => (id, e)

/-- Decidable per-key form of the Windows round-trip property: a key with a
defined virtual-key code either survives `code_to_key ∘ key_to_code`, or
shares its code with another canonical key (a table ambiguity). -/
def win_roundtrip_ok (k : Key) : Bool :=
  match Windows.key_to_code k with
  | none => true
  | some c =>
    Windows.code_to_key c == k ||
      decide (∃ j : Key, j ≠ k ∧ Windows.key_to_code j = some c)

/-- Decidable per-key form of the macOS round-trip property. -/
def mac_roundtrip_ok (k : Key) : Bool :=
  match Macos.key_to_code k with
  | none => true
  | some c => Macos.code_to_key c == k

/-!
# Theorems
-/

set_option maxHeartbeats 2000000 in
set_option maxRecDepth 10000 in
/-- Every key of the Windows table round-trips or shares its code. -/
theorem win_roundtrip_holds : ∀ k : Key, win_roundtrip_ok k = true := by decide

set_option maxRecDepth 10000 in
/-- Every key of the macOS table round-trips (its codes are pairwise
distinct). -/
theorem mac_roundtrip_holds : ∀ k : Key, mac_roundtrip_ok k = true := by decide

/-- C7: for every canonical `Key` for which the platform translation table
defines a code, `code_to_key (key_to_code k)` yields `k` again, except for
ambiguity exceptions in which two canonical keys share one platform code
(on Windows: `Enter`/`NumpadEnter` on 13, `Backslash`/`IntlYen` on 220,
`IntlBackslash`/`IntlRo` on 226; the macOS table has no such collision and
round-trips everywhere). -/
theorem C7_key_roundtrip (k : Key) (c : Nat) :
    (Windows.key_to_code k = some c →
      Windows.code_to_key c = k ∨ ∃ j : Key, j ≠ k ∧ Windows.key_to_code j = some c)
    ∧ (Macos.key_to_code k = some c → Macos.code_to_key c = k) := by
  constructor
  · intro h
    have hk := win_roundtrip_holds k
    unfold win_roundtrip_ok at hk
    rw [h] at hk
    rcases (Bool.or_eq_true _ _).mp hk with h1 | h2
    · exact Or.inl (beq_iff_eq.mp h1)
    · exact Or.inr (of_decide_eq_true h2)
  · intro h
    have hk := mac_roundtrip_holds k
    unfold mac_roundtrip_ok at hk
    rw [h] at hk
    exact beq_iff_eq.mp hk

/-- Witness for C7: `NumpadEnter` has Windows code 13 (shared with `Enter`),
`KeyA` has macOS code 0 and round-trips. -/
theorem C7_key_roundtrip_witness :
    (Windows.key_to_code Key.NumpadEnter = some 13 ∧
      (Windows.code_to_key 13 = Key.NumpadEnter ∨
        ∃ j : Key, j ≠ Key.NumpadEnter ∧ Windows.key_to_code j = some 13)) ∧
    (Macos.key_to_code Key.KeyA = some 0 ∧ Macos.code_to_key 0 = Key.KeyA) :=
  ⟨⟨by decide, (C7_key_roundtrip Key.NumpadEnter 13).1 (by decide)⟩,
   ⟨by decide, (C7_key_roundtrip Key.KeyA 0).2 (by decide)⟩⟩

/-- Counterexample to C8: at virtual-desktop bounds `(x=-1920, y=0, w=5760,
h=1080)`, scale 1.0 and target logical `(0, 0)`, the claim predicts
normalized X `21845`; the code's formula `(0 - (-1920)) * 65535 / (5760-1)`
evaluates to `21848.79…`, truncated to `21848`. -/
theorem C8_counterexample :
    ¬ Windows.add_mouse_move_to (-1920) 0 5760 1080 1 0 0 = [(21845, 0)] := by
  have h : Windows.add_mouse_move_to (-1920) 0 5760 1080 1 0 0 = [(21848, 0)] := by
    norm_num [Windows.add_mouse_move_to, Windows.f64_as_i32]
  rw [h]
  decide

/-- C8 (amended): `mouse_move_to` injects nothing when the virtual-desktop
extent is degenerate (≤ 1 pixel on either axis); otherwise it injects one
absolute-move descriptor whose per-axis coordinate is the float value
`(target·scale − origin) · 65535 / (extent − 1)` truncated by the `as i32`
cast; at bounds `(-1920, 0, 5760, 1080)`, scale 1.0, target `(0, 0)` the
normalized X is `21848` (not `21845`) and the normalized Y is `0`. -/
theorem C8_mouse_move_to (vx vy vw vh : Int) (scale_factor x y : ℚ)
    (hw : 1 < vw) (hh : 1 < vh) :
    Windows.add_mouse_move_to vx vy vw vh scale_factor x y =
      [(Windows.f64_as_i32 ((x * scale_factor - (vx : ℚ)) * 65535 / ((vw : ℚ) - 1)),
        Windows.f64_as_i32 ((y * scale_factor - (vy : ℚ)) * 65535 / ((vh : ℚ) - 1)))]
    ∧ (∀ vw' vh' : Int, vw' ≤ 1 ∨ vh' ≤ 1 →
        Windows.add_mouse_move_to vx vy vw' vh' scale_factor x y = [])
    ∧ Windows.add_mouse_move_to (-1920) 0 5760 1080 1 0 0 = [(21848, 0)] := by
  refine ⟨?_, ?_, ?_⟩
  · rw [Windows.add_mouse_move_to, if_neg]
    push_neg
    exact ⟨hw, hh⟩
  · intro vw' vh' h
    rw [Windows.add_mouse_move_to, if_pos h]
  · norm_num [Windows.add_mouse_move_to, Windows.f64_as_i32]

/-- Witness for C8 at the documented example bounds. -/
theorem C8_mouse_move_to_witness :
    Windows.add_mouse_move_to (-1920) 0 5760 1080 1 0 0 =
      [(Windows.f64_as_i32 ((0 * 1 - ((-1920 : Int) : ℚ)) * 65535 / (((5760 : Int) : ℚ) - 1)),
        Windows.f64_as_i32 ((0 * 1 - ((0 : Int) : ℚ)) * 65535 / (((1080 : Int) : ℚ) - 1)))] :=
  (C8_mouse_move_to (-1920) 0 5760 1080 1 0 0 (by decide) (by decide)).1

/-- Counterexample to C3: on Windows, `Core::stop` from a state in which the
Listener and Interceptor run with full masks leaves both engines running
with their masks intact — the claim predicts both are forced to Paused with
mask zero on every platform. -/
theorem C3_counterexample :
    ¬ ((Windows.Core.stop
          { Windows.initState with
              isCoreRunning := true,
              isListenRunning := true,
              listenFlag := LISTENS_ALL,
              isGrabRunning := true,
              grabFlag := GRAB_ALL,
              mouseHook := true,
              keyboardHook := true,
              coreThreadId := true }).isListenRunning = false ∧
        (Windows.Core.stop
          { Windows.initState with
              isCoreRunning := true,
              isListenRunning := true,
              listenFlag := LISTENS_ALL,
              isGrabRunning := true,
              grabFlag := GRAB_ALL,
              mouseHook := true,
              keyboardHook := true,
              coreThreadId := true }).listenFlag = 0) := by
  decide

/-- C3 (amended): `Core::stop` always drives the Capture running flag to
false regardless of prior state and is idempotent and safe without a prior
start, on both platforms; on macOS it additionally stops the Listener
engine (paused, mask cleared, registry emptied) and the Interceptor engine
(paused, mask cleared) and stops the run loop, while on Windows it only
uninstalls the two low-level hooks and clears the stored thread id, leaving
the Listener and Interceptor engines untouched. -/
theorem C3_stop (sw : Windows.WinState) (sm : Macos.MacState) :
    Macos.Core.stop sm =
      { sm with
          isCoreRunning := false,
          isListenRunning := false,
          listenFlag := 0,
          reg := dispatcher.RegState.initial,
          isGrabRunning := false,
          grabFlag := 0,
          runLoop := false }
    ∧ Windows.Core.stop sw =
      { sw with
          isCoreRunning := false,
          mouseHook := false,
          keyboardHook := false,
          coreThreadId := false }
    ∧ Macos.Core.stop (Macos.Core.stop sm) = Macos.Core.stop sm
    ∧ Windows.Core.stop (Windows.Core.stop sw) = Windows.Core.stop sw :=
  ⟨rfl, rfl, rfl, rfl⟩

/-- Counterexample to C2: on Windows the hook callback never consults the
Capture running flag — with Capture paused (`IS_CORE_RUNNING = false`) but
Listener and Interceptor enabled, a keyboard raw event is still normalized
and dispatched, and a block decision is still taken. -/
theorem C2_counterexample :
    ¬ ((Windows.Core.hook_event_callback
          { Windows.initState with
              isListenRunning := true,
              listenFlag := LISTENS_ALL,
              isGrabRunning := true,
              grabFlag := GRAB_ALL }
          0 ⟨Windows.WM_KEYDOWN, 0, 65, 30⟩).dispatched = [] ∧
        (Windows.Core.hook_event_callback
          { Windows.initState with
              isListenRunning := true,
              listenFlag := LISTENS_ALL,
              isGrabRunning := true,
              grabFlag := GRAB_ALL }
          0 ⟨Windows.WM_KEYDOWN, 0, 65, 30⟩).blocked = false) := by
  decide

/-- C2 (amended): pausing Capture gates raw events only on macOS, where the
tap callback drops every event (no normalization, no block decision, no
warp, no state change) while `IS_CORE_RUNNING` is false; the Windows hook
callback ignores the Capture running flag entirely, so events still reach
Listener normalization and Interceptor evaluation there. -/
theorem C2_capture_pause_gate (sm : Macos.MacState) (t : Macos.CGEventType)
    (e : Macos.CGEventData) (sw : Windows.WinState) (c : Int)
    (ew : Windows.WinRawEvent) (b : Bool)
    (hm : sm.isCoreRunning = false) :
    Macos.Core.hook_event_callback sm t e = ⟨sm, [], false, 0⟩
    ∧ Windows.Core.hook_event_callback { sw with isCoreRunning := b } c ew =
        Windows.Core.hook_event_callback sw c ew := by
  constructor
  · rw [Macos.Core.hook_event_callback, if_pos hm]
  · rfl

/-- Witness for C2 (amended), at a paused macOS state that would otherwise
listen to everything. -/
theorem C2_capture_pause_gate_witness :
    Macos.Core.hook_event_callback
        { Macos.initState with isListenRunning := true, listenFlag := LISTENS_ALL }
        Macos.CGEventType.keyDown ⟨0, 0, 0, 0, 0, 0, 0⟩ =
      ⟨{ Macos.initState with isListenRunning := true, listenFlag := LISTENS_ALL },
        [], false, 0⟩
    ∧ Windows.Core.hook_event_callback
        { Windows.initState with isCoreRunning := true } 0
        ⟨Windows.WM_KEYDOWN, 0, 65, 30⟩ =
      Windows.Core.hook_event_callback Windows.initState 0
        ⟨Windows.WM_KEYDOWN, 0, 65, 30⟩ :=
  C2_capture_pause_gate
    { Macos.initState with isListenRunning := true, listenFlag := LISTENS_ALL }
    Macos.CGEventType.keyDown ⟨0, 0, 0, 0, 0, 0, 0⟩
    Windows.initState 0 ⟨Windows.WM_KEYDOWN, 0, 65, 30⟩ true rfl

/-- The macOS normalizer touches only `LAST_FLAGS`: it never changes the
Interceptor's mask or running flag. -/
theorem Macos_handle_preserves_grab (s : Macos.MacState) (t : Macos.CGEventType)
    (e : Macos.CGEventData) :
    ((Macos.Listen.handle s t e).1).grabFlag = s.grabFlag ∧
    ((Macos.Listen.handle s t e).1).isGrabRunning = s.isGrabRunning := by
  unfold Macos.Listen.handle
  constructor <;> dsimp only <;> (repeat' split) <;> rfl

/-- Counterexample to C5: on macOS a blocked *keyboard* event still
triggers a cursor warp whenever the Interceptor's move-category bit happens
to be set — the warp is keyed on the mask bit, not on the blocked event's
class.  The claim predicts no warp for a blocked non-move event. -/
theorem C5_counterexample :
    (Macos.Core.hook_event_callback
        { Macos.initState with
            isCoreRunning := true,
            isGrabRunning := true,
            grabFlag := GRAB_MOUSE_MOVE ||| GRAB_KEYBOARD }
        Macos.CGEventType.keyDown ⟨0, 0, 0, 0, 0, 0, 0⟩).warps ≠ 0 := by
  decide

/-- C5 (amended): on macOS the tap callback performs a cursor warp exactly
when the raw event is blocked *and* the Interceptor's move-category bit is
set (whatever the class of the blocked event), and at most one warp per
event; the Windows hook callback never warps the cursor. -/
theorem C5_warp_on_block (s : Macos.MacState) (t : Macos.CGEventType)
    (e : Macos.CGEventData) (sw : Windows.WinState) (c : Int)
    (ew : Windows.WinRawEvent) :
    ((Macos.Core.hook_event_callback s t e).warps =
      if (Macos.Core.hook_event_callback s t e).dropped = true
          ∧ s.grabFlag &&& GRAB_MOUSE_MOVE ≠ 0 then 1 else 0)
    ∧ (Macos.Core.hook_event_callback s t e).warps ≤ 1
    ∧ (Windows.Core.hook_event_callback sw c ew).warps = 0 := by
  refine ⟨?_, ?_, ?_⟩
  · have hg := (Macos_handle_preserves_grab s t e).1
    unfold Macos.Core.hook_event_callback
    by_cases hc : s.isCoreRunning = false
    · simp [hc]
    · rw [if_neg hc]
      dsimp only []
      by_cases hb : Macos.Grab.should_block (Macos.Listen.handle s t e).1 t = true
      · rw [if_pos hb]
        by_cases hm : (Macos.Listen.handle s t e).1.grabFlag &&& GRAB_MOUSE_MOVE ≠ 0
        · rw [if_pos hm]
          rw [hg] at hm
          simp [hm]
        · rw [if_neg hm]
          rw [hg] at hm
          simp [hm]
      · rw [if_neg hb]
        simp
  · unfold Macos.Core.hook_event_callback
    dsimp only []
    repeat' split
    all_goals simp
  · unfold Windows.Core.hook_event_callback
    repeat' split
    all_goals rfl

/-- C6: for every Lifecycle engine, `start()` moves Stopped to Running
through the `compare_exchange` in `is_run`, and a second `start()` without
an intervening `stop()` is a no-op success: on Windows `Core::start` from a
clean Stopped state installs the mouse and keyboard hooks exactly once,
returns `Ok` and enters the message loop, and a repeated `Core::start`
returns `Ok` immediately, leaves the state (hook install counts included)
unchanged and does not enter the loop; `Listen::start` and `Grab::start`
on an already-running engine change nothing. -/
theorem C6_start_idempotent (s t u : Windows.WinState)
    (h1 : s.isCoreRunning = false) (h2 : s.mouseHook = false)
    (h3 : s.keyboardHook = false) (h4 : s.mouseHookInstalls = 0)
    (h5 : s.keyboardHookInstalls = 0)
    (ht : t.isListenRunning = true) (hu : u.isGrabRunning = true) :
    (Windows.Core.start s).ok = true
    ∧ ((Windows.Core.start s).state).isCoreRunning = true
    ∧ ((Windows.Core.start s).state).mouseHookInstalls = 1
    ∧ ((Windows.Core.start s).state).keyboardHookInstalls = 1
    ∧ ((Windows.Core.start s).state).mouseHook = true
    ∧ ((Windows.Core.start s).state).keyboardHook = true
    ∧ Windows.Core.start ((Windows.Core.start s).state) =
        ⟨(Windows.Core.start s).state, true, false⟩
    ∧ Windows.Listen.start t = t
    ∧ Windows.Grab.start u = u := by
  have hstart : Windows.Core.start s =
      ⟨{ s with
          isCoreRunning := true,
          globalHwnd := true,
          mouseHook := true,
          mouseHookInstalls := s.mouseHookInstalls + 1,
          keyboardHook := true,
          keyboardHookInstalls := s.keyboardHookInstalls + 1,
          coreThreadId := true }, true, true⟩ := by
    unfold Windows.Core.start Windows.Core.is_run Windows.Core.handle_hook
    rw [h1]
    dsimp only []
    rw [h2, h3]
    by_cases hg : s.globalHwnd <;> simp [hg]
  refine ⟨?_, ?_, ?_, ?_, ?_, ?_, ?_, ?_, ?_⟩
  · rw [hstart]
  · rw [hstart]
  · rw [hstart]
    simpa using h4
  · rw [hstart]
    simpa using h5
  · rw [hstart]
  · rw [hstart]
  · rw [hstart]
    unfold Windows.Core.start Windows.Core.is_run
    rfl
  · unfold Windows.Listen.start Windows.Listen.is_run
    rw [ht]
  · unfold Windows.Grab.start Windows.Grab.is_run
    rw [hu]

/-- Witness for C6 at the process-start state: one hook of each kind after
the first `start`, and the second `start` replays as a pure no-op success. -/
theorem C6_start_idempotent_witness :
    Windows.initState.isCoreRunning = false
    ∧ ((Windows.Core.start Windows.initState).state).mouseHookInstalls = 1
    ∧ ((Windows.Core.start Windows.initState).state).keyboardHookInstalls = 1
    ∧ Windows.Core.start ((Windows.Core.start Windows.initState).state) =
        ⟨(Windows.Core.start Windows.initState).state, true, false⟩
    ∧ Windows.Listen.start { Windows.initState with isListenRunning := true } =
        { Windows.initState with isListenRunning := true } := by
  have h := C6_start_idempotent Windows.initState
    { Windows.initState with isListenRunning := true }
    { Windows.initState with isGrabRunning := true }
    rfl rfl rfl rfl rfl rfl rfl
  exact ⟨rfl, h.2.2.1, h.2.2.2.1, h.2.2.2.2.2.2.1, h.2.2.2.2.2.2.2.1⟩

/-- C10: `Listen::start` from the Stopped state stores `LISTENS_ALL`
(all four category bits) into the Listener mask, overwriting any toggles
made while stopped, and flips the running flag; `Listen::start` while
already Running returns before touching the mask, so per-category toggles
made while running survive a redundant start — on both platforms. -/
theorem C10_listen_start_mask (sw : Windows.WinState) (sm : Macos.MacState) :
    (sw.isListenRunning = false →
      Windows.Listen.start sw =
        { sw with isListenRunning := true, listenFlag := LISTENS_ALL })
    ∧ (sw.isListenRunning = true → Windows.Listen.start sw = sw)
    ∧ (sm.isListenRunning = false →
      Macos.Listen.start sm =
        { sm with isListenRunning := true, listenFlag := LISTENS_ALL })
    ∧ (sm.isListenRunning = true → Macos.Listen.start sm = sm) := by
  refine ⟨?_, ?_, ?_, ?_⟩ <;> intro h
  · unfold Windows.Listen.start Windows.Listen.is_run
    rw [h]
  · unfold Windows.Listen.start Windows.Listen.is_run
    rw [h]
  · unfold Macos.Listen.start Macos.Listen.is_run
    rw [h]
  · unfold Macos.Listen.start Macos.Listen.is_run
    rw [h]

/-- Witness for C10: starting the stopped Windows listener sets mask 15;
re-starting a running macOS listener whose mask was narrowed to the
mouse-button bit leaves that mask intact. -/
theorem C10_listen_start_mask_witness :
    Windows.Listen.start Windows.initState =
      { Windows.initState with isListenRunning := true, listenFlag := LISTENS_ALL }
    ∧ Macos.Listen.start
        { Macos.initState with isListenRunning := true, listenFlag := LISTEN_MOUSE_BUTTON } =
      { Macos.initState with isListenRunning := true, listenFlag := LISTEN_MOUSE_BUTTON } := by
  have h := C10_listen_start_mask Windows.initState
    { Macos.initState with isListenRunning := true, listenFlag := LISTEN_MOUSE_BUTTON }
  exact ⟨h.1 rfl, h.2.2.2 rfl⟩

/-- Counterexample to C4: the macOS normalizer forwards a `ScrollWheel`
event with both axis deltas zero as a canonical `MouseWheel (0, 0)` event —
there is no per-axis (nor whole-event) zero suppression on the wheel path,
so the claim's wheel half fails.  (The claim predicts no canonical event
for the zero contribution.) -/
theorem C4_counterexample :
    ¬ ((Macos.Listen.handle
          { Macos.initState with isListenRunning := true, listenFlag := LISTENS_ALL }
          Macos.CGEventType.scrollWheel ⟨0, 0, 0, 0, 0, 0, 0⟩).2 = []) := by
  decide

set_option maxHeartbeats 1000000 in
/-- C4 (amended): a raw *move-class* event whose both deltas are zero
produces no canonical event on either platform (Windows Raw-Input path and
macOS `MouseMoved` path), hence no subscriber callback; *wheel-class*
events however are forwarded unconditionally once the wheel category gate
passes — each wheel raw event yields exactly one canonical `MouseWheel`
event carrying the converted axis values even when they are zero (Windows:
`hiword(mouseData) as i16 / 120` on one axis; macOS: the two axis deltas
verbatim). -/
theorem C4_zero_delta (sw : Windows.WinState) (r : Windows.RawMouseInput)
    (sm : Macos.MacState) (e : Macos.CGEventData) (md vk sc : Nat)
    (hx : r.lLastX = 0) (hy : r.lLastY = 0)
    (hdx : e.mouseDeltaX = 0) (hdy : e.mouseDeltaY = 0)
    (hrun : sw.isListenRunning = true)
    (hwheel : sw.listenFlag &&& LISTEN_MOUSE_WHEEL ≠ 0)
    (hrunm : sm.isListenRunning = true)
    (hwheelm : sm.listenFlag &&& LISTEN_MOUSE_WHEEL ≠ 0) :
    (Windows.Listen.handle_mouse_move sw r).2 = []
    ∧ (Macos.Listen.handle sm Macos.CGEventType.mouseMoved e).2 = []
    ∧ Windows.Listen.handle sw ⟨Windows.WM_MOUSEWHEEL, md, vk, sc⟩ =
        [Event.mouseWheel 0
          ((Windows.i16_of_u16 (Windows.hiword md) : ℚ) / (Windows.WHEEL_DELTA : ℚ))]
    ∧ (Macos.Listen.handle sm Macos.CGEventType.scrollWheel e).2 =
        [Event.mouseWheel (e.scrollDeltaAxis2 : ℚ) (e.scrollDeltaAxis1 : ℚ)] := by
  have hs0w : ¬ (sw.listenFlag = 0) := by
    intro h0
    rw [h0] at hwheel
    exact hwheel (by decide)
  have hs0m : ¬ (sm.listenFlag = 0) := by
    intro h0
    rw [h0] at hwheelm
    exact hwheelm (by decide)
  refine ⟨?_, ?_, ?_, ?_⟩
  · unfold Windows.Listen.handle_mouse_move
    rw [hx, hy]
    repeat' split
    all_goals first | rfl | omega
  · unfold Macos.Listen.handle
    dsimp only
    rw [hdx, hdy]
    repeat' split
    all_goals first | rfl | omega
  · unfold Windows.Listen.handle
    rw [hrun]
    simp only [Bool.true_eq_false, if_false]
    rw [if_neg hs0w]
    dsimp only
    rw [if_pos (by decide)]
    rw [if_neg (fun hc => hwheel hc.2)]
    rw [if_neg (fun hc => hc.1 (Or.inl trivial))]
    rw [if_neg (by decide), if_neg (by decide), if_neg (by decide), if_neg (by decide),
      if_neg (by decide), if_neg (by decide), if_pos (by decide)]
  · unfold Macos.Listen.handle
    rw [hrunm]
    simp only [Bool.true_eq_false, if_false]
    rw [if_neg hs0m]
    rw [if_neg hwheelm]

/-- Witness for C4 (amended) at concrete fully-listening states: zero-delta
moves vanish, zero wheel events survive as `MouseWheel (0, 0)`. -/
theorem C4_zero_delta_witness :
    (Windows.Listen.handle_mouse_move
        { Windows.initState with isListenRunning := true, listenFlag := LISTENS_ALL }
        ⟨true, true, 0, 0, 0⟩).2 = []
    ∧ (Macos.Listen.handle
        { Macos.initState with isListenRunning := true, listenFlag := LISTENS_ALL }
        Macos.CGEventType.mouseMoved ⟨0, 0, 0, 0, 0, 0, 0⟩).2 = []
    ∧ Windows.Listen.handle
        { Windows.initState with isListenRunning := true, listenFlag := LISTENS_ALL }
        ⟨Windows.WM_MOUSEWHEEL, 0, 0, 0⟩ =
        [Event.mouseWheel 0
          ((Windows.i16_of_u16 (Windows.hiword 0) : ℚ) / (Windows.WHEEL_DELTA : ℚ))]
    ∧ (Macos.Listen.handle
        { Macos.initState with isListenRunning := true, listenFlag := LISTENS_ALL }
        Macos.CGEventType.scrollWheel ⟨0, 0, 0, 0, 0, 0, 0⟩).2 =
        [Event.mouseWheel (((0 : Int) : ℚ)) (((0 : Int) : ℚ))] := by
  have h := C4_zero_delta
    { Windows.initState with isListenRunning := true, listenFlag := LISTENS_ALL }
    ⟨true, true, 0, 0, 0⟩
    { Macos.initState with isListenRunning := true, listenFlag := LISTENS_ALL }
    ⟨0, 0, 0, 0, 0, 0, 0⟩ 0 0 0
    rfl rfl rfl rfl rfl (by decide) rfl (by decide)
  exact ⟨h.1, h.2.1, h.2.2.1, h.2.2.2⟩

/-- C9: on a flags-changed notification handled by the running,
keyboard-enabled Listener, the new flags are XORed against the stored
`LAST_FLAGS` snapshot, which is replaced by the new flags; a zero XOR emits
no event, and a nonzero XOR emits exactly one event — `KeyDown` when the
changed bit rose (it is set in the new flags), `KeyUp` when it fell —
carrying the `Key` translated from the notification's raw key code. -/
theorem C9_flags_changed (s : Macos.MacState) (e : Macos.CGEventData)
    (h1 : s.isListenRunning = true)
    (h2 : s.listenFlag &&& LISTEN_KEYBOARD ≠ 0) :
    ((Macos.Listen.handle s Macos.CGEventType.flagsChanged e).1).lastFlags = e.flags
    ∧ (e.flags = s.lastFlags →
        (Macos.Listen.handle s Macos.CGEventType.flagsChanged e).2 = [])
    ∧ (e.flags ≠ s.lastFlags →
        (Macos.Listen.handle s Macos.CGEventType.flagsChanged e).2 =
          [if e.flags &&& (e.flags ^^^ s.lastFlags) ≠ 0 then
              Event.keyDown (Macos.code_to_key e.keyboardKeycode) none
            else Event.keyUp (Macos.code_to_key e.keyboardKeycode) none]) := by
  have hs0 : ¬ (s.listenFlag = 0) := by
    intro h0
    rw [h0] at h2
    exact h2 (by decide)
  unfold Macos.Listen.handle
  rw [h1]
  simp only [Bool.true_eq_false, if_false]
  rw [if_neg hs0, if_neg h2]
  refine ⟨?_, ?_, ?_⟩
  · repeat' split
    all_goals rfl
  · intro h
    rw [if_pos (by rw [h, Nat.xor_self])]
  · intro h
    rw [if_neg (fun hx => h (Nat.xor_eq_zero.mp hx))]
    by_cases hb : e.flags &&& (e.flags ^^^ s.lastFlags) ≠ 0
    · rw [if_pos hb, if_pos hb]
    · rw [if_neg hb, if_neg hb]

/-- Witness for C9: the spec's three documented instances, at a listening
state — `0x00000 → 0x20000` yields exactly one `KeyDown`, `0x20000 →
0x00000` exactly one `KeyUp`, `old = new` yields no event, and the snapshot
is replaced each time. -/
theorem C9_flags_changed_witness :
    ((Macos.Listen.handle
        { Macos.initState with isListenRunning := true, listenFlag := LISTENS_ALL }
        Macos.CGEventType.flagsChanged ⟨0, 0, 0, 0, 0, 0x38, 0x20000⟩).1).lastFlags = 0x20000
    ∧ (Macos.Listen.handle
        { Macos.initState with isListenRunning := true, listenFlag := LISTENS_ALL }
        Macos.CGEventType.flagsChanged ⟨0, 0, 0, 0, 0, 0x38, 0x20000⟩).2 =
        [if (0x20000 : Nat) &&& (0x20000 ^^^ (0 : Nat)) ≠ 0 then
            Event.keyDown (Macos.code_to_key 0x38) none
          else Event.keyUp (Macos.code_to_key 0x38) none]
    ∧ (Macos.Listen.handle
        { Macos.initState with
            isListenRunning := true, listenFlag := LISTENS_ALL, lastFlags := 0x20000 }
        Macos.CGEventType.flagsChanged ⟨0, 0, 0, 0, 0, 0x38, 0⟩).2 =
        [if (0 : Nat) &&& (0 ^^^ (0x20000 : Nat)) ≠ 0 then
            Event.keyDown (Macos.code_to_key 0x38) none
          else Event.keyUp (Macos.code_to_key 0x38) none]
    ∧ (Macos.Listen.handle
        { Macos.initState with
            isListenRunning := true, listenFlag := LISTENS_ALL, lastFlags := 0x20000 }
        Macos.CGEventType.flagsChanged ⟨0, 0, 0, 0, 0, 0x38, 0x20000⟩).2 = [] := by
  have hA := C9_flags_changed
    { Macos.initState with isListenRunning := true, listenFlag := LISTENS_ALL }
    ⟨0, 0, 0, 0, 0, 0x38, 0x20000⟩ rfl (by decide)
  have hB := C9_flags_changed
    { Macos.initState with
        isListenRunning := true, listenFlag := LISTENS_ALL, lastFlags := 0x20000 }
    ⟨0, 0, 0, 0, 0, 0x38, 0⟩ rfl (by decide)
  have hC := C9_flags_changed
    { Macos.initState with
        isListenRunning := true, listenFlag := LISTENS_ALL, lastFlags := 0x20000 }
    ⟨0, 0, 0, 0, 0, 0x38, 0x20000⟩ rfl (by decide)
  exact ⟨hA.1, hA.2.2 (by decide), hB.2.2 (by decide), hC.2.1 rfl⟩

namespace dispatcher

theorem setStatus_keys (id : Nat) (st : Status) (l : List (Nat × Status)) :
    (setStatus id st l).map Prod.fst = l.map Prod.fst := by
  induction l with
  | nil => rfl
  | cons p tl ih =>
    simp only [setStatus, List.map_cons] at ih ⊢
    by_cases h : p.1 = id <;> simp [h, ih]

theorem wf_applyOp (s : RegState) (op : Op) (h : WF s) : WF (applyOp s op) := by
  obtain ⟨hbound, hnodup⟩ := h
  cases op with
  | subscribe =>
    dsimp only [applyOp, subscribe]
    refine ⟨?_, ?_⟩
    · intro p hp
      rcases List.mem_append.mp hp with hin | hin
      · exact Nat.lt_succ_of_lt (hbound p hin)
      · rcases List.mem_singleton.mp hin with rfl
        exact Nat.lt_succ_self _
    · rw [List.map_append]
      refine List.Nodup.append hnodup (List.nodup_singleton _) ?_
      intro a ha hb
      rcases List.mem_map.mp ha with ⟨p, hp, rfl⟩
      have h1 : p.1 = s.nextId := by simpa using hb
      have h2 := hbound p hp
      omega
  | pause id =>
    refine ⟨?_, ?_⟩
    · intro p hp
      rcases List.mem_map.mp hp with ⟨q, hq, rfl⟩
      by_cases h : q.1 = id <;> simp only [h, if_pos, if_neg, reduceIte] <;>
        first
          | exact hbound q hq
          | skip
      · simpa [h] using hbound q hq
    · rw [show (applyOp s (Op.pause id)).subs = setStatus id Status.Paused s.subs from rfl] at *
      rw [setStatus_keys]
      exact hnodup
  | resume id =>
    refine ⟨?_, ?_⟩
    · intro p hp
      rcases List.mem_map.mp hp with ⟨q, hq, rfl⟩
      by_cases h : q.1 = id
      · simpa [h] using hbound q hq
      · simpa [h] using hbound q hq
    · rw [show (applyOp s (Op.resume id)).subs = setStatus id Status.Active s.subs from rfl]
      rw [setStatus_keys]
      exact hnodup
  | unsubscribe id =>
    refine ⟨?_, ?_⟩
    · intro p hp
      exact hbound p (List.mem_of_mem_filter hp)
    · exact ((List.filter_sublist _).map Prod.fst).nodup hnodup

theorem wf_applyOps (ops : List Op) (s : RegState) (h : WF s) : WF (applyOps s ops) := by
  induction ops generalizing s with
  | nil => exact h
  | cons op tl ih => exact ih _ (wf_applyOp s op h)

theorem wf_initial : WF RegState.initial := ⟨fun p hp => absurd hp (List.not_mem_nil p), List.nodup_nil⟩

theorem key_unique {l : List (Nat × Status)} (hnd : (l.map Prod.fst).Nodup)
    {a : Nat} {b c : Status} (hb : (a, b) ∈ l) (hc : (a, c) ∈ l) : b = c := by
  induction l with
  | nil => cases hb
  | cons p tl ih =>
    have hnd' : (p.1 :: tl.map Prod.fst).Nodup := by simpa using hnd
    rcases List.nodup_cons.mp hnd' with ⟨hp, htl⟩
    rcases List.mem_cons.mp hb with rfl | hb'
    · rcases List.mem_cons.mp hc with h | hc'
      · exact congrArg Prod.snd h.symm
      · exact absurd (List.mem_map.mpr ⟨_, hc', rfl⟩) hp
    · rcases List.mem_cons.mp hc with rfl | hc'
      · exact absurd (List.mem_map.mpr ⟨_, hb', rfl⟩) hp
      · exact ih htl hb' hc'

theorem mem_invoked_of_active {subs : List (Nat × Status)} {id : Nat}
    (h : (id, Status.Active) ∈ subs) : id ∈ dispatch_invoked subs := by
  exact List.mem_map.mpr ⟨(id, Status.Active), List.mem_filter.mpr ⟨h, rfl⟩, rfl⟩

theorem exists_active_of_mem_invoked {subs : List (Nat × Status)} {id : Nat}
    (h : id ∈ dispatch_invoked subs) : (id, Status.Active) ∈ subs := by
  rcases List.mem_map.mp h with ⟨p, hp, rfl⟩
  rcases List.mem_filter.mp hp with ⟨hmem, hactive⟩
  rcases p with ⟨i, st⟩
  cases st with
  | Active => exact hmem
  | Paused => simp at hactive

theorem nodup_invoked {subs : List (Nat × Status)}
    (h : (subs.map Prod.fst).Nodup) : (dispatch_invoked subs).Nodup := by
  have hsub : ((subs.filter fun p => p.2 == Status.Active).map Prod.fst).Sublist
      (subs.map Prod.fst) := (List.filter_sublist _).map Prod.fst
  exact hsub.nodup h

end dispatcher

/-- C1: after any sequence of subscribe/pause/resume/unsubscribe operations
from the initial registry, one `dispatch` sweep invokes the callback of a
subscriber read as `Active` exactly once, never invokes a `Paused`
subscriber, never invokes a subscriber absent from the registry, and never
invokes any callback twice for the same event. -/
theorem C1_dispatch_exact (ops : List dispatcher.Op) (id : Nat) :
    ((id, dispatcher.Status.Active) ∈
        (dispatcher.applyOps dispatcher.RegState.initial ops).subs →
      (dispatcher.dispatch_invoked
        (dispatcher.applyOps dispatcher.RegState.initial ops).subs).count id = 1)
    ∧ ((id, dispatcher.Status.Paused) ∈
        (dispatcher.applyOps dispatcher.RegState.initial ops).subs →
      id ∉ dispatcher.dispatch_invoked
        (dispatcher.applyOps dispatcher.RegState.initial ops).subs)
    ∧ (id ∉ ((dispatcher.applyOps dispatcher.RegState.initial ops).subs).map Prod.fst →
      id ∉ dispatcher.dispatch_invoked
        (dispatcher.applyOps dispatcher.RegState.initial ops).subs)
    ∧ (dispatcher.dispatch_invoked
        (dispatcher.applyOps dispatcher.RegState.initial ops).subs).count id ≤ 1 := by
  obtain ⟨hbound, hnodup⟩ :=
    dispatcher.wf_applyOps ops dispatcher.RegState.initial dispatcher.wf_initial
  refine ⟨?_, ?_, ?_, ?_⟩
  · intro h
    exact List.count_eq_one_of_mem (dispatcher.nodup_invoked hnodup)
      (dispatcher.mem_invoked_of_active h)
  · intro h hmem
    exact absurd
      (dispatcher.key_unique hnodup (dispatcher.exists_active_of_mem_invoked hmem) h)
      (by decide)
  · intro h hmem
    exact h (List.mem_map.mpr ⟨_, dispatcher.exists_active_of_mem_invoked hmem, rfl⟩)
  · exact List.nodup_iff_count_le_one.mp (dispatcher.nodup_invoked hnodup) id

/-- Witness for C1 after `subscribe; subscribe; pause 0`: subscriber 1 is
Active and invoked exactly once, subscriber 0 is Paused and not invoked,
the never-registered id 5 is not invoked. -/
theorem C1_dispatch_exact_witness :
    ((1, dispatcher.Status.Active) ∈
        (dispatcher.applyOps dispatcher.RegState.initial
          [dispatcher.Op.subscribe, dispatcher.Op.subscribe, dispatcher.Op.pause 0]).subs
      ∧ (dispatcher.dispatch_invoked
          (dispatcher.applyOps dispatcher.RegState.initial
            [dispatcher.Op.subscribe, dispatcher.Op.subscribe,
              dispatcher.Op.pause 0]).subs).count 1 = 1)
    ∧ ((0, dispatcher.Status.Paused) ∈
        (dispatcher.applyOps dispatcher.RegState.initial
          [dispatcher.Op.subscribe, dispatcher.Op.subscribe, dispatcher.Op.pause 0]).subs
      ∧ 0 ∉ dispatcher.dispatch_invoked
          (dispatcher.applyOps dispatcher.RegState.initial
            [dispatcher.Op.subscribe, dispatcher.Op.subscribe,
              dispatcher.Op.pause 0]).subs)
    ∧ (5 ∉ ((dispatcher.applyOps dispatcher.RegState.initial
          [dispatcher.Op.subscribe, dispatcher.Op.subscribe,
            dispatcher.Op.pause 0]).subs).map Prod.fst
      ∧ 5 ∉ dispatcher.dispatch_invoked
          (dispatcher.applyOps dispatcher.RegState.initial
            [dispatcher.Op.subscribe, dispatcher.Op.subscribe,
              dispatcher.Op.pause 0]).subs) := by
  have hA := C1_dispatch_exact
    [dispatcher.Op.subscribe, dispatcher.Op.subscribe, dispatcher.Op.pause 0] 1
  have hB := C1_dispatch_exact
    [dispatcher.Op.subscribe, dispatcher.Op.subscribe, dispatcher.Op.pause 0] 0
  have hC := C1_dispatch_exact
    [dispatcher.Op.subscribe, dispatcher.Op.subscribe, dispatcher.Op.pause 0] 5
  exact ⟨⟨by decide, hA.1 (by decide)⟩, ⟨by decide, hB.2.1 (by decide)⟩,
    ⟨by decide, hC.2.2.1 (by decide)⟩⟩
